import Mathlib

/-!
# HeatControlBox: setpoint clamping and hysteresis heater control

A shallow embedding of `src/main.cpp`. The program is one polling loop over a
handful of global variables. The globals and the level of the heater relay pin
form the state; the sensor reading and the two button pin levels are the inputs
of one `loop()` iteration. `float` arithmetic is modelled over exact rationals,
which is exact on values that binary32 adds and subtracts without rounding, such as
the multiples of 0.5 between 25 and 30 that the shipped constants produce. The model
of an iteration ends with the heater decision (line 115): serial logging, the
`dtostrf` formatting into the two six-byte buffers, display drawing and the final
`delay` (lines 117-141) are not modelled.
-/

namespace HeatControlBox

/-- Logic level of a digital pin (`LOW` / `HIGH` of the Arduino core). -/
inductive PinLevel where
  | LOW
  | HIGH
  deriving DecidableEq, Repr

open PinLevel

/-- The global variables of `main.cpp` (lines 36-41) together with the level last
written to `HEATPIN`. The global `t` is shadowed by the local `t` of `loop()` and is
never written. -/
structure State where
  t : ℚ
  target_t : ℚ
  target_max : ℚ
  target_min : ℚ
  target_range : ℚ
  step_size : ℚ
  heatPin : PinLevel
  deriving DecidableEq

/-- The state after `setup()`: the initialisers of lines 36-41; `heat` is the level
of the relay pin at power-on, which the program does not set. -/
def startup (heat : PinLevel) : State :=
  { t := 0
    target_t := 28
    target_max := 30
    target_min := 25
    target_range := 2 / 5
    step_size := 1 / 2
    heatPin := heat }

/-- `isUpButtonPressed`: the button is pressed when its pin reads `LOW`. -/
def isUpButtonPressed (upButtonPin : PinLevel) : Bool :=
  upButtonPin == LOW

/-- `isDownButtonPressed`: the button is pressed when its pin reads `LOW`. -/
def isDownButtonPressed (downButtonPin : PinLevel) : Bool :=
  downButtonPin == LOW

/-- `increaseTargetTemp` (lines 55-61). -/
def increaseTargetTemp (s : State) : State :=
  if s.target_t < s.target_max then
    { s with target_t := s.target_t + s.step_size }
  else s

/-- `decreaseTargetTemp` (lines 63-69). -/
def decreaseTargetTemp (s : State) : State :=
  if s.target_t > s.target_min then
    { s with target_t := s.target_t - s.step_size }
  else s

/-- `digitalWrite(HEATPIN, level)`. -/
def digitalWriteHeat (s : State) (level : PinLevel) : State :=
  { s with heatPin := level }

/-- The button handling of `loop()` (lines 99-106). -/
def buttonHandling (s : State) (upButtonPin downButtonPin : PinLevel) : State :=
  let s1 := if isUpButtonPressed upButtonPin then increaseTargetTemp s else s
  if isDownButtonPressed downButtonPin then decreaseTargetTemp s1 else s1

/-- The heater decision of `loop()` (lines 108-115): two sequential independent
`if`s on the reading `t`. -/
def heaterDecision (s : State) (t : ℚ) : State :=
  let s1 := if t < s.target_t - s.target_range / 2 then digitalWriteHeat s HIGH else s
  if t > s1.target_t + s1.target_range / 2 then digitalWriteHeat s1 LOW else s1

/-- One iteration of `loop()` from the sensor reading `t` (line 92) and the two button
pin levels through the button handling (lines 99-106) and the heater decision
(lines 108-115). The rest of the body (lines 117-141) is not modelled. -/
def loop (s : State) (t : ℚ) (upButtonPin downButtonPin : PinLevel) : State :=
  let s1 := if isUpButtonPressed upButtonPin then increaseTargetTemp s else s
  let s2 := if isDownButtonPressed downButtonPin then decreaseTargetTemp s1 else s1
  let s3 := if t < s2.target_t - s2.target_range / 2 then digitalWriteHeat s2 HIGH else s2
  if t > s3.target_t + s3.target_range / 2 then digitalWriteHeat s3 LOW else s3

/-- A call of one of the two setpoint operations. -/
inductive SetpointOp where
  | increase
  | decrease
  deriving DecidableEq, Repr

/-- Perform one setpoint call. -/
def applyOp (s : State) : SetpointOp → State
  | .increase => increaseTargetTemp s
  | .decrease => decreaseTargetTemp s

/-- Perform a finite sequence of setpoint calls, first call first. -/
def runOps (s : State) (ops : List SetpointOp) : State :=
  ops.foldl applyOp s

/-- Repeat `n` evaluations of the heater decision on the same reading `t`. -/
def heaterDecisionN (t : ℚ) : Nat → State → State
  | 0, s => s
  | n + 1, s => heaterDecisionN t n (heaterDecision s t)

/-- Call `increaseTargetTemp` `n` times. -/
def increaseN : Nat → State → State
  | 0, s => s
  | n + 1, s => increaseN n (increaseTargetTemp s)

/-- States the shipped program can be in at the start of an iteration: the startup
state, and whatever an iteration of `loop()` makes of such a state. -/
inductive Reachable : State → Prop where
  | init (heat : PinLevel) : Reachable (startup heat)
  | step {s : State} (t : ℚ) (upButtonPin downButtonPin : PinLevel) :
      Reachable s → Reachable (loop s t upButtonPin downButtonPin)

/-- The three-region law as the specification words it: ON below the low threshold,
else OFF above the high threshold, else the previous output. -/
def threeRegionLaw (t target_t target_range : ℚ) (previous : PinLevel) : PinLevel :=
  let lowThreshold := target_t - target_range / 2
  let highThreshold := target_t + target_range / 2
  if t < lowThreshold then HIGH
  else if t > highThreshold then LOW
  else previous

/-- The setpoint sits on the grid `lo + k * st`, `k ≤ b`, between the bounds
`target_min = lo` and `target_max = lo + b * st`. -/
def OnGrid (lo st : ℚ) (b : Nat) (s : State) : Prop :=
  s.target_min = lo ∧ s.target_max = lo + b * st ∧ s.step_size = st ∧
    ∃ k : Nat, k ≤ b ∧ s.target_t = lo + k * st

/-- The state the shipped program reaches after four iterations with only the up
button pressed: the setpoint sits at `target_max`. -/
def atMaxState : State :=
  loop (loop (loop (loop (startup LOW) 28 LOW HIGH) 28 LOW HIGH) 28 LOW HIGH) 28 LOW HIGH

theorem increase_target_t (s : State) :
    (increaseTargetTemp s).target_t =
      if s.target_t < s.target_max then s.target_t + s.step_size else s.target_t := by
  unfold increaseTargetTemp
  split <;> rfl

theorem decrease_target_t (s : State) :
    (decreaseTargetTemp s).target_t =
      if s.target_t > s.target_min then s.target_t - s.step_size else s.target_t := by
  unfold decreaseTargetTemp
  split <;> rfl

theorem increase_consts (s : State) :
    (increaseTargetTemp s).target_min = s.target_min ∧
    (increaseTargetTemp s).target_max = s.target_max ∧
    (increaseTargetTemp s).step_size = s.step_size ∧
    (increaseTargetTemp s).target_range = s.target_range ∧
    (increaseTargetTemp s).heatPin = s.heatPin ∧
    (increaseTargetTemp s).t = s.t := by
  unfold increaseTargetTemp
  split <;> simp

theorem decrease_consts (s : State) :
    (decreaseTargetTemp s).target_min = s.target_min ∧
    (decreaseTargetTemp s).target_max = s.target_max ∧
    (decreaseTargetTemp s).step_size = s.step_size ∧
    (decreaseTargetTemp s).target_range = s.target_range ∧
    (decreaseTargetTemp s).heatPin = s.heatPin ∧
    (decreaseTargetTemp s).t = s.t := by
  unfold decreaseTargetTemp
  split <;> simp

/-! ## The grid invariant -/

theorem onGrid_bounds {lo st : ℚ} {b : Nat} {s : State} (hst : 0 < st)
    (h : OnGrid lo st b s) : s.target_min ≤ s.target_t ∧ s.target_t ≤ s.target_max := by
  obtain ⟨hmin, hmax, -, k, hk, ht⟩ := h
  have hk' : (k : ℚ) ≤ b := by exact_mod_cast hk
  have h0 : (0 : ℚ) ≤ k := by positivity
  rw [hmin, hmax, ht]
  constructor
  · nlinarith
  · nlinarith

theorem onGrid_increase {lo st : ℚ} {b : Nat} {s : State} (hst : 0 < st)
    (h : OnGrid lo st b s) : OnGrid lo st b (increaseTargetTemp s) := by
  obtain ⟨hmin, hmax, hstep, k, hk, ht⟩ := h
  obtain ⟨c1, c2, c3, -, -, -⟩ := increase_consts s
  refine ⟨c1.trans hmin, c2.trans hmax, c3.trans hstep, ?_⟩
  rw [increase_target_t]
  split
  · rename_i hlt
    rw [ht, hmax] at hlt
    have hkb : (k : ℚ) < b := by
      by_contra hc
      push_neg at hc
      nlinarith
    have hkb' : k < b := by exact_mod_cast hkb
    refine ⟨k + 1, hkb', ?_⟩
    rw [ht, hstep]
    push_cast
    ring
  · exact ⟨k, hk, ht⟩

theorem onGrid_decrease {lo st : ℚ} {b : Nat} {s : State} (hst : 0 < st)
    (h : OnGrid lo st b s) : OnGrid lo st b (decreaseTargetTemp s) := by
  obtain ⟨hmin, hmax, hstep, k, hk, ht⟩ := h
  obtain ⟨c1, c2, c3, -, -, -⟩ := decrease_consts s
  refine ⟨c1.trans hmin, c2.trans hmax, c3.trans hstep, ?_⟩
  rw [decrease_target_t]
  split
  · rename_i hgt
    rw [ht, hmin] at hgt
    have hk0 : (0 : ℚ) < k := by
      by_contra hc
      push_neg at hc
      nlinarith
    have hk0' : 0 < k := by exact_mod_cast hk0
    obtain ⟨j, rfl⟩ : ∃ j, k = j + 1 := ⟨k - 1, by omega⟩
    refine ⟨j, by omega, ?_⟩
    rw [ht, hstep]
    push_cast
    ring
  · exact ⟨k, hk, ht⟩

theorem onGrid_applyOp {lo st : ℚ} {b : Nat} {s : State} (hst : 0 < st)
    (h : OnGrid lo st b s) (op : SetpointOp) : OnGrid lo st b (applyOp s op) := by
  cases op
  · exact onGrid_increase hst h
  · exact onGrid_decrease hst h

theorem onGrid_runOps {lo st : ℚ} {b : Nat} (hst : 0 < st) (ops : List SetpointOp) :
    ∀ s : State, OnGrid lo st b s → OnGrid lo st b (runOps s ops) := by
  induction ops with
  | nil => intro s h; exact h
  | cons op ops ih =>
    intro s h
    exact ih (applyOp s op) (onGrid_applyOp hst h op)

theorem startup_onGrid (heat : PinLevel) : OnGrid 25 (1 / 2) 10 (startup heat) := by
  refine ⟨rfl, ?_, rfl, 6, by omega, ?_⟩
  · show (30 : ℚ) = 25 + (10 : Nat) * (1 / 2)
    norm_num
  · show (28 : ℚ) = 25 + (6 : Nat) * (1 / 2)
    norm_num

/-! ## Repeated increase -/

theorem increaseN_at_max (n : Nat) :
    ∀ s : State, s.target_max ≤ s.target_t → increaseN n s = s := by
  induction n with
  | zero => intro s _; rfl
  | succ n ih =>
    intro s h
    have hs : increaseTargetTemp s = s := by
      unfold increaseTargetTemp
      rw [if_neg (not_lt.mpr h)]
    show increaseN n (increaseTargetTemp s) = s
    rw [hs]
    exact ih s h

theorem increaseN_onGrid (n : Nat) :
    ∀ s : State, OnGrid 25 (1 / 2) 10 s →
      (increaseN n s).target_t = min 30 (s.target_t + n / 2) := by
  induction n with
  | zero =>
    intro s h
    have hb := onGrid_bounds (by norm_num) h
    have hmax : s.target_max = 30 := by rw [h.2.1]; norm_num
    show s.target_t = min 30 (s.target_t + ((0 : Nat) : ℚ) / 2)
    rw [min_eq_right]
    · simp
    · rw [hmax] at hb
      simp only [Nat.cast_zero, zero_div, add_zero]
      exact hb.2
  | succ n ih =>
    intro s h
    have hb := onGrid_bounds (by norm_num) h
    have hmax : s.target_max = 30 := by rw [h.2.1]; norm_num
    have hstep : s.step_size = 1 / 2 := h.2.2.1
    show (increaseN n (increaseTargetTemp s)).target_t = _
    rw [ih _ (onGrid_increase (by norm_num) h), increase_target_t]
    split
    · rw [hstep]
      push_cast
      congr 1
      ring
    · rename_i hge
      have h30 : s.target_t = 30 := by
        rw [hmax] at hge hb
        exact le_antisymm hb.2 (not_lt.mp hge)
      rw [h30]
      have h0 : (0 : ℚ) ≤ n := by positivity
      rw [min_eq_left, min_eq_left]
      · push_cast
        linarith
      · linarith

/-! ## The heater decision and the loop -/

theorem heaterDecision_eq (s : State) (t : ℚ) :
    heaterDecision s t =
      { s with heatPin :=
          if t > s.target_t + s.target_range / 2 then LOW
          else if t < s.target_t - s.target_range / 2 then HIGH
          else s.heatPin } := by
  unfold heaterDecision digitalWriteHeat
  by_cases h1 : t < s.target_t - s.target_range / 2 <;>
    by_cases h2 : t > s.target_t + s.target_range / 2 <;> simp [h1, h2]

theorem loop_eq (s : State) (t : ℚ) (upButtonPin downButtonPin : PinLevel) :
    loop s t upButtonPin downButtonPin =
      heaterDecision (buttonHandling s upButtonPin downButtonPin) t := rfl

theorem buttonHandling_both (s : State) :
    buttonHandling s LOW LOW = decreaseTargetTemp (increaseTargetTemp s) := rfl

theorem buttonHandling_cases (s : State) (upButtonPin downButtonPin : PinLevel) :
    buttonHandling s upButtonPin downButtonPin = s ∨
    buttonHandling s upButtonPin downButtonPin = increaseTargetTemp s ∨
    buttonHandling s upButtonPin downButtonPin = decreaseTargetTemp s ∨
    buttonHandling s upButtonPin downButtonPin = decreaseTargetTemp (increaseTargetTemp s) := by
  cases upButtonPin <;> cases downButtonPin
  · exact Or.inr (Or.inr (Or.inr rfl))
  · exact Or.inr (Or.inl rfl)
  · exact Or.inr (Or.inr (Or.inl rfl))
  · exact Or.inl rfl

theorem onGrid_buttonHandling {lo st : ℚ} {b : Nat} {s : State} (hst : 0 < st)
    (h : OnGrid lo st b s) (upButtonPin downButtonPin : PinLevel) :
    OnGrid lo st b (buttonHandling s upButtonPin downButtonPin) := by
  rcases buttonHandling_cases s upButtonPin downButtonPin with e | e | e | e <;> rw [e]
  · exact h
  · exact onGrid_increase hst h
  · exact onGrid_decrease hst h
  · exact onGrid_decrease hst (onGrid_increase hst h)

theorem buttonHandling_range (s : State) (upButtonPin downButtonPin : PinLevel) :
    (buttonHandling s upButtonPin downButtonPin).target_range = s.target_range ∧
    (buttonHandling s upButtonPin downButtonPin).heatPin = s.heatPin := by
  have hi := increase_consts s
  have hd := decrease_consts s
  have hdi := decrease_consts (increaseTargetTemp s)
  rcases buttonHandling_cases s upButtonPin downButtonPin with e | e | e | e <;> rw [e]
  · exact ⟨rfl, rfl⟩
  · exact ⟨hi.2.2.2.1, hi.2.2.2.2.1⟩
  · exact ⟨hd.2.2.2.1, hd.2.2.2.2.1⟩
  · exact ⟨hdi.2.2.2.1.trans hi.2.2.2.1, hdi.2.2.2.2.1.trans hi.2.2.2.2.1⟩

theorem onGrid_loop {lo st : ℚ} {b : Nat} {s : State} (hst : 0 < st)
    (h : OnGrid lo st b s) (t : ℚ) (upButtonPin downButtonPin : PinLevel) :
    OnGrid lo st b (loop s t upButtonPin downButtonPin) := by
  rw [loop_eq, heaterDecision_eq]
  exact onGrid_buttonHandling hst h upButtonPin downButtonPin

theorem reachable_onGrid {s : State} (h : Reachable s) :
    OnGrid 25 (1 / 2) 10 s ∧ s.target_range = 2 / 5 := by
  induction h with
  | init heat => exact ⟨startup_onGrid heat, rfl⟩
  | step t u d _ ih =>
    refine ⟨onGrid_loop (by norm_num) ih.1 t u d, ?_⟩
    rw [loop_eq, heaterDecision_eq]
    exact (buttonHandling_range _ u d).1.trans ih.2

theorem reachable_bounds {s : State} (h : Reachable s) :
    s.target_min = 25 ∧ s.target_max = 30 ∧ s.step_size = 1 / 2 ∧
      25 ≤ s.target_t ∧ s.target_t ≤ 30 := by
  have hg := (reachable_onGrid h).1
  have hb := onGrid_bounds (by norm_num) hg
  have hmax : s.target_max = 30 := by rw [hg.2.1]; norm_num
  rw [hg.1, hmax] at hb
  exact ⟨hg.1, hmax, hg.2.2.1, hb.1, hb.2⟩

theorem loop_up_step {s : State} {x : ℚ} (t : ℚ)
    (h : s.target_max = 30 ∧ s.step_size = 1 / 2 ∧ s.target_t = x) (hx : x < 30) :
    (loop s t LOW HIGH).target_max = 30 ∧ (loop s t LOW HIGH).step_size = 1 / 2 ∧
      (loop s t LOW HIGH).target_t = x + 1 / 2 := by
  obtain ⟨hmax, hstep, ht⟩ := h
  obtain ⟨-, c2, c3, -, -, -⟩ := increase_consts s
  rw [loop_eq, heaterDecision_eq]
  show (increaseTargetTemp s).target_max = 30 ∧ (increaseTargetTemp s).step_size = 1 / 2 ∧
    (increaseTargetTemp s).target_t = x + 1 / 2
  refine ⟨c2.trans hmax, c3.trans hstep, ?_⟩
  rw [increase_target_t, if_pos (by rw [ht, hmax]; exact hx), ht, hstep]

theorem atMaxState_reachable : Reachable atMaxState :=
  .step 28 LOW HIGH (.step 28 LOW HIGH (.step 28 LOW HIGH (.step 28 LOW HIGH (.init LOW))))

theorem atMaxState_target_t : atMaxState.target_t = 30 := by
  have h0 : (startup LOW).target_max = 30 ∧ (startup LOW).step_size = 1 / 2 ∧
      (startup LOW).target_t = 28 := ⟨rfl, rfl, rfl⟩
  have h1 := loop_up_step 28 h0 (by norm_num)
  have h2 := loop_up_step 28 h1 (by norm_num)
  have h3 := loop_up_step 28 h2 (by norm_num)
  have h4 := loop_up_step 28 h3 (by norm_num)
  rw [show atMaxState.target_t = _ from h4.2.2]
  norm_num

/-! ## Setpoint clamping -/

/-- C1: from the startup state, after every finite sequence of `increaseTargetTemp` /
`decreaseTargetTemp` calls in any order, `25 ≤ target_t ≤ 30`. -/
theorem startup_setpoint_within_bounds (heat : PinLevel) (ops : List SetpointOp) :
    25 ≤ (runOps (startup heat) ops).target_t ∧ (runOps (startup heat) ops).target_t ≤ 30 := by
  have hg := onGrid_runOps (by norm_num) ops (startup heat) (startup_onGrid heat)
  have hb := onGrid_bounds (by norm_num) hg
  have hmax : (runOps (startup heat) ops).target_max = 30 := by rw [hg.2.1]; norm_num
  rw [hg.1, hmax] at hb
  exact hb

/-- C6: from the startup state, `n` calls of `increaseTargetTemp` give
`target_t = min 30 (28 + n / 2)`; five calls give 30, six calls give 30, and from any
state with `target_t = target_max` any number of calls leaves the state as it is. -/
theorem increase_saturates :
    (∀ (heat : PinLevel) (n : Nat),
      (increaseN n (startup heat)).target_t = min (30 : ℚ) (28 + (1 / 2 : ℚ) * (n : ℚ))) ∧
    (∀ heat : PinLevel, (increaseN 5 (startup heat)).target_t = 30) ∧
    (∀ heat : PinLevel, (increaseN 6 (startup heat)).target_t = 30) ∧
    (∀ (s : State) (n : Nat),
      increaseN n { s with target_t := s.target_max } = { s with target_t := s.target_max }) := by
  have key : ∀ (heat : PinLevel) (n : Nat),
      (increaseN n (startup heat)).target_t = min (30 : ℚ) (28 + (1 / 2 : ℚ) * (n : ℚ)) := by
    intro heat n
    rw [increaseN_onGrid n (startup heat) (startup_onGrid heat)]
    show min (30 : ℚ) (28 + (n : ℚ) / 2) = _
    congr 1
    ring
  refine ⟨key, ?_, ?_, ?_⟩
  · intro heat
    rw [key]
    norm_num
  · intro heat
    rw [key]
    norm_num
  · intro s n
    exact increaseN_at_max n _ (le_refl _)

/-! ## Hysteresis -/

/-- C4: with a band `target_range > 0`, one evaluation of the heater decision leaves the
heater ON when `t < target_t - target_range / 2` and OFF when
`t > target_t + target_range / 2`, whatever the heater was before. With `target_t = 28`
and `target_range = 0.4`: `t = 27.5` gives ON, then `t = 28.5` gives OFF, and `t = 28`
leaves the heater as it was. -/
theorem hysteresis_activation (s : State) (t : ℚ) (hr : 0 < s.target_range) :
    (t < s.target_t - s.target_range / 2 → (heaterDecision s t).heatPin = HIGH) ∧
    (t > s.target_t + s.target_range / 2 → (heaterDecision s t).heatPin = LOW) ∧
    (s.target_t = 28 → s.target_range = 2 / 5 →
      (heaterDecision s (55 / 2)).heatPin = HIGH ∧
      (heaterDecision (heaterDecision s (55 / 2)) (57 / 2)).heatPin = LOW ∧
      (heaterDecision s 28).heatPin = s.heatPin ∧
      (heaterDecision (heaterDecision s (55 / 2)) 28).heatPin = HIGH ∧
      (heaterDecision (heaterDecision (heaterDecision s (55 / 2)) (57 / 2)) 28).heatPin = LOW) := by
  refine ⟨?_, ?_, ?_⟩
  · intro h
    rw [heaterDecision_eq]
    show (if t > s.target_t + s.target_range / 2 then LOW
      else if t < s.target_t - s.target_range / 2 then HIGH else s.heatPin) = HIGH
    rw [if_neg (by linarith), if_pos h]
  · intro h
    rw [heaterDecision_eq]
    show (if t > s.target_t + s.target_range / 2 then LOW
      else if t < s.target_t - s.target_range / 2 then HIGH else s.heatPin) = LOW
    rw [if_pos h]
  · intro ht hrange
    simp only [heaterDecision_eq, ht, hrange]
    norm_num

/-- Witness for C4: the startup state with the heater OFF has `target_range = 0.4 > 0`,
`target_t = 28`, and the reading 27.5 lies below the low threshold 27.8. -/
theorem hysteresis_activation_witness :
    0 < (startup LOW).target_range ∧
    (heaterDecision (startup LOW) (55 / 2)).heatPin = HIGH ∧
    (heaterDecision (heaterDecision (startup LOW) (55 / 2)) (57 / 2)).heatPin = LOW ∧
    (heaterDecision (startup LOW) 28).heatPin = LOW :=
  have h := hysteresis_activation (startup LOW) (55 / 2) (by norm_num [startup])
  have h3 := h.2.2 rfl rfl
  ⟨by norm_num [startup], h.1 (by norm_num [startup]), h3.2.1, h3.2.2.1⟩

/-- C5: with a band `target_range > 0` and a reading `t` strictly inside the band,
any number `n` of repeated evaluations of the heater decision with that `t` leaves the
heater, and the whole state, as it was. -/
theorem hysteresis_no_chatter (s : State) (t : ℚ) (n : Nat) (_hr : 0 < s.target_range)
    (hlo : s.target_t - s.target_range / 2 < t) (hhi : t < s.target_t + s.target_range / 2) :
    (heaterDecisionN t n s).heatPin = s.heatPin ∧ heaterDecisionN t n s = s := by
  have h1 : heaterDecision s t = s := by
    rw [heaterDecision_eq, if_neg (not_lt.mpr hhi.le), if_neg (not_lt.mpr hlo.le)]
  have hn : heaterDecisionN t n s = s := by
    induction n with
    | zero => rfl
    | succ n ih =>
      show heaterDecisionN t n (heaterDecision s t) = s
      rw [h1]
      exact ih
  exact ⟨by rw [hn], hn⟩

/-- Witness for C5: the startup state with the heater ON and the reading 28 held for
seven evaluations. -/
theorem hysteresis_no_chatter_witness :
    (heaterDecisionN 28 7 (startup HIGH)).heatPin = HIGH :=
  (hysteresis_no_chatter (startup HIGH) 28 7 (by norm_num [startup])
    (by norm_num [startup]) (by norm_num [startup])).1

/-- C8: with `target_range > 0` no reading is both below the low and above the high
threshold, and the two sequential `if`s compute the same heater level as the
three-region law (ON below low, else OFF above high, else previous), both as the
fragment and inside a whole `loop()` iteration. -/
theorem sequential_ifs_refine_three_region (s : State) (t : ℚ) (hr : 0 < s.target_range) :
    ¬ (t < s.target_t - s.target_range / 2 ∧ t > s.target_t + s.target_range / 2) ∧
    (heaterDecision s t).heatPin = threeRegionLaw t s.target_t s.target_range s.heatPin ∧
    heaterDecision s t =
      { s with heatPin := threeRegionLaw t s.target_t s.target_range s.heatPin } ∧
    (∀ upButtonPin downButtonPin : PinLevel,
      (loop s t upButtonPin downButtonPin).heatPin =
        threeRegionLaw t (buttonHandling s upButtonPin downButtonPin).target_t
          s.target_range s.heatPin) := by
  have hlaw : ∀ (x r : ℚ) (p : PinLevel), 0 < r →
      (if t > x + r / 2 then LOW else if t < x - r / 2 then HIGH else p) =
        threeRegionLaw t x r p := by
    intro x r p hpos
    unfold threeRegionLaw
    by_cases h1 : t < x - r / 2
    · have h2 : ¬ t > x + r / 2 := by
        intro h2
        linarith
      simp [h1, h2]
    · by_cases h2 : t > x + r / 2 <;> simp [h1, h2]
  have hstate : heaterDecision s t =
      { s with heatPin := threeRegionLaw t s.target_t s.target_range s.heatPin } := by
    rw [heaterDecision_eq, hlaw _ _ _ hr]
  refine ⟨?_, ?_, hstate, ?_⟩
  · rintro ⟨h1, h2⟩
    linarith
  · rw [hstate]
  · intro u d
    obtain ⟨e1, e2⟩ := buttonHandling_range s u d
    rw [loop_eq, heaterDecision_eq]
    show (if t > (buttonHandling s u d).target_t + (buttonHandling s u d).target_range / 2
      then LOW
      else if t < (buttonHandling s u d).target_t - (buttonHandling s u d).target_range / 2
      then HIGH else (buttonHandling s u d).heatPin) = _
    rw [e1, e2, hlaw _ _ _ hr]

/-- Witness for C8: the startup state with the heater ON and the reading 28.5, above the
high threshold 28.2. -/
theorem sequential_ifs_refine_three_region_witness :
    0 < (startup HIGH).target_range ∧
    (heaterDecision (startup HIGH) (57 / 2)).heatPin =
      threeRegionLaw (57 / 2) (startup HIGH).target_t (startup HIGH).target_range HIGH :=
  ⟨by norm_num [startup],
    (sequential_ifs_refine_three_region (startup HIGH) (57 / 2) (by norm_num [startup])).2.1⟩

/-! ## The loop iteration -/

/-- C9: one `loop()` iteration is the heater decision applied to the state the button
handling leaves: the new heater level is OFF above, ON below and unchanged inside the
band around the setpoint after the button step. From `target_t = 28`, reading 28, heater
OFF and only the up button pressed, the iteration ends with `target_t = 28.5` and the
heater ON, where the decision on the starting setpoint would have left it OFF. -/
theorem heater_uses_updated_setpoint (s : State) (t : ℚ) (upButtonPin downButtonPin : PinLevel) :
    loop s t upButtonPin downButtonPin =
      heaterDecision (buttonHandling s upButtonPin downButtonPin) t ∧
    (loop s t upButtonPin downButtonPin).target_t =
      (buttonHandling s upButtonPin downButtonPin).target_t ∧
    (loop s t upButtonPin downButtonPin).heatPin =
      (if t > (buttonHandling s upButtonPin downButtonPin).target_t + s.target_range / 2
        then LOW
      else if t < (buttonHandling s upButtonPin downButtonPin).target_t - s.target_range / 2
        then HIGH
      else s.heatPin) ∧
    ((loop (startup LOW) 28 LOW HIGH).target_t = 57 / 2 ∧
      (loop (startup LOW) 28 LOW HIGH).heatPin = HIGH ∧
      (heaterDecision (startup LOW) 28).heatPin = LOW) := by
  obtain ⟨e1, e2⟩ := buttonHandling_range s upButtonPin downButtonPin
  have h0 : (startup LOW).target_max = 30 ∧ (startup LOW).step_size = 1 / 2 ∧
      (startup LOW).target_t = 28 := ⟨rfl, rfl, rfl⟩
  have hex : (loop (startup LOW) 28 LOW HIGH).target_t = 57 / 2 := by
    rw [(loop_up_step 28 h0 (by norm_num)).2.2]
    norm_num
  refine ⟨loop_eq s t upButtonPin downButtonPin, ?_, ?_, ?_, ?_, ?_⟩
  · rw [loop_eq, heaterDecision_eq]
  · rw [loop_eq, heaterDecision_eq]
    show (if t > (buttonHandling s upButtonPin downButtonPin).target_t +
          (buttonHandling s upButtonPin downButtonPin).target_range / 2 then LOW
        else if t < (buttonHandling s upButtonPin downButtonPin).target_t -
          (buttonHandling s upButtonPin downButtonPin).target_range / 2 then HIGH
        else (buttonHandling s upButtonPin downButtonPin).heatPin) = _
    rw [e1, e2]
  · exact hex
  · have ht : (buttonHandling (startup LOW) LOW HIGH).target_t = 57 / 2 := by
      rw [← hex, loop_eq, heaterDecision_eq]
    have hr := (buttonHandling_range (startup LOW) LOW HIGH).1
    rw [loop_eq, heaterDecision_eq]
    show (if (28 : ℚ) > (buttonHandling (startup LOW) LOW HIGH).target_t +
          (buttonHandling (startup LOW) LOW HIGH).target_range / 2 then LOW
        else if (28 : ℚ) < (buttonHandling (startup LOW) LOW HIGH).target_t -
          (buttonHandling (startup LOW) LOW HIGH).target_range / 2 then HIGH
        else (buttonHandling (startup LOW) LOW HIGH).heatPin) = HIGH
    rw [ht, hr]
    norm_num [startup]
  · rw [heaterDecision_eq]
    norm_num [startup]

/-- C10: with both buttons pressed `loop()` applies `increaseTargetTemp` and then
`decreaseTargetTemp`: from every state reachable from startup with `target_t < 30` the
setpoint ends the iteration unchanged, and from `target_t = 30` the increase is a no-op
and the setpoint ends at 29.5. -/
theorem both_buttons_pressed (s : State) (hs : Reachable s) (t : ℚ) :
    (loop s t LOW LOW).target_t = (decreaseTargetTemp (increaseTargetTemp s)).target_t ∧
    (s.target_t < 30 → (loop s t LOW LOW).target_t = s.target_t) ∧
    (s.target_t = 30 →
      increaseTargetTemp s = s ∧ (loop s t LOW LOW).target_t = 59 / 2) := by
  obtain ⟨hmin, hmax, hstep, hlo, hhi⟩ := reachable_bounds hs
  obtain ⟨c1, -, c3, -, -, -⟩ := increase_consts s
  have hl : (loop s t LOW LOW).target_t =
      (decreaseTargetTemp (increaseTargetTemp s)).target_t := by
    rw [loop_eq, heaterDecision_eq, buttonHandling_both]
  refine ⟨hl, ?_, ?_⟩
  · intro hlt
    have hinc : (increaseTargetTemp s).target_t = s.target_t + 1 / 2 := by
      rw [increase_target_t, if_pos (by rw [hmax]; exact hlt), hstep]
    rw [hl, decrease_target_t, c1, c3, hinc, hmin, hstep, if_pos (by linarith)]
    ring
  · intro h30
    have hinc : increaseTargetTemp s = s := by
      unfold increaseTargetTemp
      rw [if_neg (by rw [hmax, h30]; exact lt_irrefl _)]
    refine ⟨hinc, ?_⟩
    rw [hl, hinc, decrease_target_t, hmin, hstep, h30, if_pos (by norm_num)]
    norm_num

/-- Witness for C10: the startup state (setpoint 28, below 30) and the reachable state
`atMaxState` (setpoint 30), each with the reading 28. -/
theorem both_buttons_pressed_witness :
    (Reachable (startup LOW) ∧ (loop (startup LOW) 28 LOW LOW).target_t = 28) ∧
    (Reachable atMaxState ∧ (loop atMaxState 28 LOW LOW).target_t = 59 / 2) :=
  ⟨⟨.init LOW, (both_buttons_pressed (startup LOW) (.init LOW) 28).2.1
      (by norm_num [startup])⟩,
    ⟨atMaxState_reachable, ((both_buttons_pressed atMaxState atMaxState_reachable 28).2.2
      atMaxState_target_t).2⟩⟩

end HeatControlBox
